import Mathlib

/-!
Verification of the SwiftGRIB comparison tooling against its design
specification.

The repository consists of four Python scripts:

* `compare_outputs.py` — payload extraction (`load_json`), the tolerant
  array comparator (`compare_values`), and the discrepancy aggregator
  (`main`).
* `compare_pygrib.py` — the record extractor that serialises one record
  per decoded message.
* `check_wind.py` — the vector-to-polar wind module
  (`calc_wind_direction`) and the eight-sector compass classification.
* `verify_wind_direction.py` — a second copy of `load_json` and of the
  wind-direction formula.

The definitions below are shallow embeddings of those scripts.  Numeric
values carried by records are modelled as exact rationals (every IEEE
double is a rational, and all comparisons performed by the scripts are
order comparisons of absolute differences); the wind module, which uses
`sqrt`/`arctan2` of doubles, is modelled over the reals.
-/

/-- Python's `abs()` on a rational, written as a conditional so that it
evaluates by unfolding.  `pyAbs_eq_abs` below identifies it with `|·|`. -/
def pyAbs (q : ℚ) : ℚ := if q < 0 then -q else q

/- ### Tolerant comparator: `compare_values` (compare_outputs.py lines 30-49)

The Python function returns a pair `(bool, str)`.  The summary string is a
fixed rendering of a small amount of data; we model the string by that
data, one constructor per formatting template in the source:
`"Length mismatch: {la} vs {lb}"`, `"Max diff {m} at index {i}, {n} values
differ"`, and `"Max diff {m}"`. -/

inductive Summary where
  | lengthMismatch (la lb : ℕ)
  | failed (maxDiff : ℚ) (maxDiffIdx : ℕ) (numDiffs : ℕ)
  | ok (maxDiff : ℚ)
deriving DecidableEq

/-- The loop of `compare_values`: walks the zipped value lists with the
running index, tracking the maximum difference together with its index and
appending every `(i, pv, sv, diff)` with `diff > tolerance` to `diffs`. -/
def cvLoop (tolerance : ℚ) :
    List (ℚ × ℚ) → ℕ → ℚ → ℕ → List (ℕ × ℚ × ℚ × ℚ) →
    ℚ × ℕ × List (ℕ × ℚ × ℚ × ℚ)
  | [], _, maxDiff, maxDiffIdx, diffs => (maxDiff, maxDiffIdx, diffs)
  | (pv, sv) :: rest, i, maxDiff, maxDiffIdx, diffs =>
    let diff := pyAbs (pv - sv)
    let maxPair := if maxDiff < diff then (diff, i) else (maxDiff, maxDiffIdx)
    let diffs2 := if tolerance < diff then diffs ++ [(i, pv, sv, diff)] else diffs
    cvLoop tolerance rest (i + 1) maxPair.1 maxPair.2 diffs2

/-- `compare_values(pygrib_vals, swift_vals, tolerance)`: a length mismatch
is reported immediately; otherwise the result is a failure exactly when the
collected `diffs` list is non-empty. -/
def compare_values (pygribVals swiftVals : List ℚ) (tolerance : ℚ) :
    Bool × Summary :=
  if pygribVals.length ≠ swiftVals.length then
    (false, .lengthMismatch pygribVals.length swiftVals.length)
  else
    let r := cvLoop tolerance (pygribVals.zip swiftVals) 0 0 0 []
    if r.2.2 = [] then (true, .ok r.1)
    else (false, .failed r.1 r.2.1 r.2.2.length)

/- ### Message records (compare_outputs.py `main`, lines 56-135)

A record is a JSON object.  The aggregator reads `parameterName`, `min`,
`max` and `mean` with unconditional indexing (a record missing one of them
would abort the run, and the extractor always emits them), so they are
plain fields; `allValues`, `first10`, `last10` are membership-tested and
`Ni`, `Nj`, `indicatorOfParameter` are read with `.get`, so they are
`Option` fields (`none` = key absent).  Fields the aggregator never
compares (timestamps, lat/lon, spot values) are omitted. -/

structure MsgRecord where
  parameterName : String
  allValues : Option (List ℚ)
  first10 : Option (List ℚ)
  last10 : Option (List ℚ)
  min : ℚ
  max : ℚ
  mean : ℚ
  Ni : Option ℤ
  Nj : Option ℤ
  indicatorOfParameter : Option ℤ
deriving DecidableEq

/-- One recorded discrepancy description, one constructor per f-string
appended to the `issues` buckets in the source. -/
inductive Descr where
  | valuesMismatch (msgNum : ℕ) (param : String) (detail : Summary)
  | sampledMismatch (msgNum : ℕ)
  | minDiffers (msgNum : ℕ) (a b : ℚ)
  | maxDiffers (msgNum : ℕ) (a b : ℚ)
  | meanDiffers (msgNum : ℕ) (a b : ℚ)
  | gridSize (msgNum : ℕ)
  | paramId (msgNum : ℕ) (a b : Option ℤ)
deriving DecidableEq

/-- The four category buckets of the `issues` dict. -/
structure Issues where
  values : List Descr
  metadata : List Descr
  grid : List Descr
  time : List Descr
deriving DecidableEq

def emptyIssues : Issues := ⟨[], [], [], []⟩

/-- One per-message pass/fail line printed by the comparison loop
(`[OK]`/`[FAIL]`, full-array or sampled). -/
inductive Line where
  | okFull (msgNum : ℕ) (param : String) (detail : Summary)
  | failFull (msgNum : ℕ) (param : String) (detail : Summary)
  | okSampled (msgNum : ℕ) (param : String)
  | failSampled (msgNum : ℕ) (param : String)
deriving DecidableEq

def isFailLine : Line → Bool
  | .failFull _ _ _ => true
  | .failSampled _ _ => true
  | _ => false

/-- Streaming state of the comparison loop: printed lines, the `issues`
buckets and the `all_match` flag. -/
structure CompareOutcome where
  lines : List Line
  issues : Issues
  allMatch : Bool
deriving DecidableEq

def pushLine (st : CompareOutcome) (l : Line) : CompareOutcome :=
  ⟨st.lines ++ [l], st.issues, st.allMatch⟩

def pushValuesIssue (st : CompareOutcome) (d : Descr) : CompareOutcome :=
  ⟨st.lines, ⟨st.issues.values ++ [d], st.issues.metadata, st.issues.grid,
    st.issues.time⟩, st.allMatch⟩

def pushGridIssue (st : CompareOutcome) (d : Descr) : CompareOutcome :=
  ⟨st.lines, ⟨st.issues.values, st.issues.metadata, st.issues.grid ++ [d],
    st.issues.time⟩, st.allMatch⟩

def pushMetadataIssue (st : CompareOutcome) (d : Descr) : CompareOutcome :=
  ⟨st.lines, ⟨st.issues.values, st.issues.metadata ++ [d], st.issues.grid,
    st.issues.time⟩, st.allMatch⟩

/-- `all_match = False`. -/
def setMismatch (st : CompareOutcome) : CompareOutcome :=
  ⟨st.lines, st.issues, false⟩

/-- `pg.get("Ni") != sg.get("Ni") or pg.get("Nj") != sg.get("Nj")`
(line 130). -/
def gridDiffers (pg sg : MsgRecord) : Bool :=
  decide (pg.Ni ≠ sg.Ni) || decide (pg.Nj ≠ sg.Nj)

/-- `pg.get("indicatorOfParameter") != sg.get("indicatorOfParameter")`
(line 134). -/
def paramIdDiffers (pg sg : MsgRecord) : Bool :=
  decide (pg.indicatorOfParameter ≠ sg.indicatorOfParameter)

/-- Lines 121-135 of `compare_outputs.py`: the scalar statistics, grid
shape and parameter-id checks.  They append to the `issues` buckets but do
not touch `all_match` or print anything. -/
def stepStats (st : CompareOutcome) (pg sg : MsgRecord) (msgNum : ℕ) :
    CompareOutcome :=
  let st1 := if (1e-6 : ℚ) < pyAbs (pg.min - sg.min) then
    pushValuesIssue st (.minDiffers msgNum pg.min sg.min) else st
  let st2 := if (1e-6 : ℚ) < pyAbs (pg.max - sg.max) then
    pushValuesIssue st1 (.maxDiffers msgNum pg.max sg.max) else st1
  let st3 := if (1e-4 : ℚ) < pyAbs (pg.mean - sg.mean) then
    pushValuesIssue st2 (.meanDiffers msgNum pg.mean sg.mean) else st2
  let st4 := if gridDiffers pg sg then
    pushGridIssue st3 (.gridSize msgNum) else st3
  if paramIdDiffers pg sg then
    pushMetadataIssue st4
      (.paramId msgNum pg.indicatorOfParameter sg.indicatorOfParameter)
  else st4

/-- Lines 84-119 of `compare_outputs.py`: the value-payload comparison of
one record pair.  `Except.error ()` models the two uncaught exceptions the
source can raise here: the `IndexError` in the first-5-values debug print
when `swift` values are shorter than `min(5, len(pygrib values))`, and the
`KeyError` on `pg["last10"]`/`sg["last10"]` when `first10` is present but
`last10` is not. -/
def stepValues (st : CompareOutcome) (pg sg : MsgRecord) (msgNum : ℕ) :
    Except Unit CompareOutcome :=
  match pg.allValues, sg.allValues with
  | some pgVals, some sgVals =>
    if (compare_values pgVals sgVals (1e-6)).1 then
      .ok (pushLine st
        (.okFull msgNum pg.parameterName (compare_values pgVals sgVals (1e-6)).2))
    else if sgVals.length < min 5 pgVals.length then
      .error ()
    else
      .ok (pushLine
        (setMismatch (pushValuesIssue st
          (.valuesMismatch msgNum pg.parameterName
            (compare_values pgVals sgVals (1e-6)).2)))
        (.failFull msgNum pg.parameterName
          (compare_values pgVals sgVals (1e-6)).2))
  | _, _ =>
    match pg.first10, sg.first10 with
    | some f1p, some f1s =>
      match pg.last10, sg.last10 with
      | some l1p, some l1s =>
        if (compare_values f1p f1s (1e-6)).1 && (compare_values l1p l1s (1e-6)).1 then
          .ok (pushLine st (.okSampled msgNum pg.parameterName))
        else
          .ok (pushLine
            (setMismatch (pushValuesIssue st (.sampledMismatch msgNum)))
            (.failSampled msgNum pg.parameterName))
      | _, _ => .error ()
    | _, _ => .ok st

/-- One iteration of the loop body: value comparison, then the scalar /
grid / parameter-id checks. -/
def stepMessage (st : CompareOutcome) (pg sg : MsgRecord) (msgNum : ℕ) :
    Except Unit CompareOutcome :=
  match stepValues st pg sg msgNum with
  | .error e => .error e
  | .ok st1 => .ok (stepStats st1 pg sg msgNum)

/-- `for i in range(len(pygrib_data))`, with `msg_num = i + 1`. -/
def compareLoop :
    List (MsgRecord × MsgRecord) → ℕ → CompareOutcome →
    Except Unit CompareOutcome
  | [], _, st => .ok st
  | (pg, sg) :: rest, i, st =>
    match stepMessage st pg sg (i + 1) with
    | .error e => .error e
    | .ok st1 => compareLoop rest (i + 1) st1

/-- Outcome of a comparison run: the fatal record-count mismatch (printed
before the loop; nothing is compared and no discrepancy recorded), or the
completed pass. -/
inductive RunResult where
  | countMismatch (npg nsg : ℕ)
  | completed (out : CompareOutcome)
deriving DecidableEq

/-- `main` of `compare_outputs.py`, lines 62-152: the length guard, the
per-message loop, and the final `all_match` verdict (held in
`CompareOutcome.allMatch`).  The detailed first-message report (lines
154-229) reads but never writes this state and is modelled separately by
`detailRowMatch`. -/
def mainCompare (pygribData swiftData : List MsgRecord) :
    Except Unit RunResult :=
  if pygribData.length ≠ swiftData.length then
    .ok (.countMismatch pygribData.length swiftData.length)
  else
    match compareLoop (pygribData.zip swiftData) 0 ⟨[], emptyIssues, true⟩ with
    | .error e => .error e
    | .ok st => .ok (.completed st)

/-- Projection: the final verdict, `some all_match` when the run completed. -/
def verdictOf : Except Unit RunResult → Option Bool
  | .ok (.completed out) => some out.allMatch
  | _ => none

/-- Projection: the recorded issues of a completed run. -/
def issuesOf : Except Unit RunResult → Issues
  | .ok (.completed out) => out.issues
  | _ => emptyIssues

/- ### First-message detail table (compare_outputs.py lines 190-213)

A field value read out of a record: a JSON number (Python `int`/`float`,
both exact rationals), a string, or `null` (the extractor's `safe_get`
default).  `pg.get(key, "N/A")` is modelled by `Option FieldVal` with
`none` for a missing key, defaulted to the string `"N/A"`. -/

inductive FieldVal where
  | num (q : ℚ)
  | str (s : String)
  | null
deriving DecidableEq

/-- The row marker `"N/A"` / `"✓"` / `"✗"`. -/
inductive MatchMark where
  | na
  | yes
  | no
deriving DecidableEq

/-- The per-row match computation of the detail table: `N/A` when either
side defaulted to `"N/A"`, numeric comparison under a strict `< 1e-6`
threshold when both sides are numbers, plain equality otherwise. -/
def detailRowMatch (pgField sgField : Option FieldVal) : MatchMark :=
  match pgField.getD (.str "N/A"), sgField.getD (.str "N/A") with
  | .str "N/A", _ => .na
  | _, .str "N/A" => .na
  | .num a, .num b => if pyAbs (a - b) < (1e-6 : ℚ) then .yes else .no
  | pv, sv => if pv = sv then .yes else .no

/- ### Payload extractor: `load_json` (compare_outputs.py lines 7-28,
also verify_wind_direction.py lines 7-22)

Python text is modelled as `List Char`; `content.split('\n')` and
`str.strip()` are given the standard structural embeddings below (Lean's
built-in `String` functions are not kernel-reducible).  `pyStrip` drops
leading and trailing whitespace like Python's `strip()` (both treat the
ASCII whitespace characters alike; exotic Unicode whitespace does not
occur in the inputs). -/

def pyStrip (l : List Char) : List Char :=
  ((l.dropWhile Char.isWhitespace).reverse.dropWhile Char.isWhitespace).reverse

/-- `content.split('\n')`: split at every newline, keeping empty pieces. -/
def splitLines : List Char → List (List Char)
  | [] => [[]]
  | c :: rest =>
    match splitLines rest with
    | [] => [[]]
    | cur :: others =>
      if c = '\n' then [] :: cur :: others else (c :: cur) :: others

/-- The scanning loop of `load_json`: before the marker is found, a line is
kept only if its stripped content is exactly `[` (which also sets the
flag); afterwards every line is kept. -/
def scanLines : List (List Char) → Bool → List (List Char) → List (List Char)
  | [], _, acc => acc
  | line :: rest, foundJson, acc =>
    if foundJson then scanLines rest true (acc ++ [line])
    else if pyStrip line = ['['] then scanLines rest true (acc ++ [line])
    else scanLines rest false acc

inductive ParseOutcome where
  | malformedPayload
  | parsed (text : List Char)
deriving DecidableEq

/-- `load_json`: collect lines from the first marker line on, rejoin them
with newlines and parse the result.  The call to `json.loads` is external
to the repository; modelled from the spec: when no marker line exists the
collected lines are empty and parsing the empty text fails with
`MalformedPayload`, while a found marker guarantees a non-empty payload
text that the spec's input constraint promises to be syntactically valid,
so it is returned as the parsed payload. -/
def load_json (content : List Char) : ParseOutcome :=
  match scanLines (splitLines content) false [] with
  | [] => .malformedPayload
  | ls => .parsed (List.intercalate ['\n'] ls)

/- ### Record extractor (compare_pygrib.py lines 22-83)

The extracted record is the built `info` dict, modelled as an association
list so that key presence is first-class.  Only the value-payload fields
are modelled: the metadata and coordinate fields are copied verbatim from
the external pygrib message object and are never conditional.  `npMin`,
`npMax` model numpy's `values.min()` / `values.max()` (defined on the
non-empty arrays produced by the decoder; the `[]` case is an arbitrary
total-function default), and `mean` is `sum / count`. -/

inductive JVal where
  | num (q : ℚ)
  | arr (l : List ℚ)
deriving DecidableEq

def npMin : List ℚ → ℚ
  | [] => 0
  | x :: xs => xs.foldl min x

def npMax : List ℚ → ℚ
  | [] => 0
  | x :: xs => xs.foldl max x

/-- The `info` dict built for message `msg_num` (1-based) with flattened
values `values`: `first10`/`last10` and the statistics are always set;
`allValues` is additionally set for the first 5 messages and the first 2
messages of every 51-message block. -/
def extractRecord (msgNum : ℕ) (values : List ℚ) : List (String × JVal) :=
  [("message", .num msgNum),
   ("numValues", .num values.length),
   ("min", .num (npMin values)),
   ("max", .num (npMax values)),
   ("mean", .num (values.sum / values.length)),
   ("first10", .arr (values.take 10)),
   ("last10", .arr (values.drop (values.length - 10)))]
  ++ (if msgNum ≤ 5 ∨ (msgNum - 1) % 51 < 2 then [("allValues", .arr values)]
      else [])

/-- Key presence in an extracted record. -/
def hasKey (r : List (String × JVal)) (k : String) : Bool :=
  r.any (fun p => p.1 == k)

/- ### Concrete fixture records used in the closed-form theorems -/

/-- A record with a full value array and all compared fields populated. -/
def recBase : MsgRecord := ⟨"t", some [0], none, none, 0, 0, 0, some 1, some 1, some 1⟩

/-- Same as `recBase` except `min = 1`: a scalar-statistics discrepancy. -/
def recMinOff : MsgRecord := ⟨"t", some [0], none, none, 1, 0, 0, some 1, some 1, some 1⟩

/-- Same as `recBase` except the `Ni` key is absent. -/
def recNiNone : MsgRecord := ⟨"t", some [0], none, none, 0, 0, 0, none, some 1, some 1⟩

/-- Same as `recBase` except `Ni = 7`. -/
def recNiSeven : MsgRecord := ⟨"t", some [0], none, none, 0, 0, 0, some 7, some 1, some 1⟩

/-- A record with every optional key absent. -/
def recAllNone : MsgRecord := ⟨"t", none, none, none, 0, 0, 0, none, none, none⟩

/- ### Vector-to-polar wind module (check_wind.py lines 9-15, 89-110)

The module computes with IEEE doubles; it is modelled over the reals.  At
every input appearing in the claims the floating-point computation is
exact up to the claims' `1e-9` tolerance, and the model's values are the
exact limits. -/

/-- `np.arctan2(-u, -v)` as called by `calc_wind_direction`, with IEEE-754
`atan2` semantics, including the signed zeros that negating the arguments
produces: negating `u = 0.0` yields `-0.0`, and IEEE `atan2` maps
`(-0.0, x < 0)` and `(-0.0, -0.0)` to `-π`, and `(±y, ±0.0)` with `y ≠ 0`
to `±π/2`.  The case split is written on the signs of the original `u`,
`v`; inside the arctangent `(-u)/(-v) = u/v`. -/
noncomputable def arctan2_neg (u v : ℝ) : ℝ :=
  if v < 0 then Real.arctan (u / v)
  else if 0 < v then
    if u < 0 then Real.arctan (u / v) + Real.pi
    else if 0 < u then Real.arctan (u / v) - Real.pi
    else -Real.pi
  else
    if u < 0 then Real.pi / 2
    else if 0 < u then -(Real.pi / 2)
    else -Real.pi

/-- `np.where(direction < 0, direction + 360, direction)`. -/
noncomputable def normalizeDeg (d : ℝ) : ℝ := if d < 0 then d + 360 else d

/-- `calc_wind_direction(u, v)`:
`speed = sqrt(u**2 + v**2)`,
`direction = degrees(arctan2(-u, -v))`, normalised into `[0, 360)` by
adding 360 to a negative result (`np.degrees(x) = x * (180 / pi)`). -/
noncomputable def calc_wind_direction (u v : ℝ) : ℝ × ℝ :=
  (Real.sqrt (u ^ 2 + v ^ 2),
   normalizeDeg (arctan2_neg u v * (180 / Real.pi)))

/-- The eight-sector compass classification of a direction (check_wind.py
lines 89-104): the `if`/`elif` chain with boundaries at odd multiples of
22.5 and the fall-through `else` giving `"NW"`. -/
noncomputable def compass (d : ℝ) : String :=
  if 337.5 ≤ d ∨ d < 22.5 then "N"
  else if 22.5 ≤ d ∧ d < 67.5 then "NE"
  else if 67.5 ≤ d ∧ d < 112.5 then "E"
  else if 112.5 ≤ d ∧ d < 157.5 then "SE"
  else if 157.5 ≤ d ∧ d < 202.5 then "S"
  else if 202.5 ≤ d ∧ d < 247.5 then "SW"
  else if 247.5 ≤ d ∧ d < 292.5 then "W"
  else "NW"

/- ### Lemmas about the comparator loop -/

theorem pyAbs_eq_abs (q : ℚ) : pyAbs q = |q| := by
  unfold pyAbs
  by_cases h : q < 0
  · rw [if_pos h, abs_of_neg h]
  · rw [if_neg h, abs_of_nonneg (not_lt.mp h)]

theorem cvLoop_diffs_nil_iff (t : ℚ) :
    ∀ (l : List (ℚ × ℚ)) (i : ℕ) (md : ℚ) (mi : ℕ)
      (ds : List (ℕ × ℚ × ℚ × ℚ)),
      (cvLoop t l i md mi ds).2.2 = [] ↔
        (ds = [] ∧ ∀ p ∈ l, |p.1 - p.2| ≤ t) := by
  intro l
  induction l with
  | nil => intro i md mi ds; simp [cvLoop]
  | cons hd rest ih =>
    intro i md mi ds
    obtain ⟨pv, sv⟩ := hd
    have hstep : cvLoop t ((pv, sv) :: rest) i md mi ds =
        cvLoop t rest (i + 1)
          (if md < pyAbs (pv - sv) then (pyAbs (pv - sv), i) else (md, mi)).1
          (if md < pyAbs (pv - sv) then (pyAbs (pv - sv), i) else (md, mi)).2
          (if t < pyAbs (pv - sv) then ds ++ [(i, pv, sv, pyAbs (pv - sv))]
           else ds) := rfl
    rw [hstep, ih]
    simp only [List.forall_mem_cons]
    by_cases hgt : t < pyAbs (pv - sv)
    · have hgt2 : ¬ (|pv - sv| ≤ t) := by
        rw [← pyAbs_eq_abs]; exact not_le.mpr hgt
      rw [if_pos hgt]
      constructor
      · rintro ⟨habs, -⟩
        exact absurd habs (by simp)
      · rintro ⟨-, hhead, -⟩
        exact absurd hhead hgt2
    · have hle : |pv - sv| ≤ t := by
        rw [← pyAbs_eq_abs]; exact not_lt.mp hgt
      rw [if_neg hgt]
      tauto

theorem forall_zip_abs_iff (a b : List ℚ) (t : ℚ) :
    (∀ p ∈ a.zip b, |p.1 - p.2| ≤ t) ↔
      ∀ (i : ℕ) (ha : i < a.length) (hb : i < b.length), |a[i] - b[i]| ≤ t := by
  constructor
  · intro hz i ha hb
    have hi : i < (a.zip b).length := by
      rw [List.length_zip]; exact lt_min ha hb
    have hmem := hz ((a.zip b)[i]) (List.getElem_mem hi)
    rwa [List.getElem_zip] at hmem
  · intro hi p hp
    obtain ⟨n, hn, hget⟩ := List.mem_iff_getElem.mp hp
    have hn2 := hn
    rw [List.length_zip, lt_min_iff] at hn2
    rw [List.getElem_zip] at hget
    rw [← hget]
    exact hi n hn2.1 hn2.2

/-- Claim C5: for equal-length lists, `compare_values` passes exactly when
every elementwise absolute difference is at most the tolerance (so a
difference equal to the tolerance passes, and a strictly greater one
fails). -/
theorem compare_values_pass_iff (a b : List ℚ) (t : ℚ)
    (h : a.length = b.length) :
    (compare_values a b t).1 = true ↔
      ∀ (i : ℕ) (ha : i < a.length) (hb : i < b.length), |a[i] - b[i]| ≤ t := by
  rw [← forall_zip_abs_iff a b t]
  simp only [compare_values, if_neg (not_not_intro h)]
  by_cases hnil : (cvLoop t (a.zip b) 0 0 0 []).2.2 = []
  · simp only [if_pos hnil]
    constructor
    · intro _
      exact ((cvLoop_diffs_nil_iff t _ 0 0 0 []).mp hnil).2
    · intro _
      trivial
  · simp only [if_neg hnil]
    constructor
    · intro hfalse
      exact absurd hfalse (by simp)
    · intro hall
      exact absurd ((cvLoop_diffs_nil_iff t _ 0 0 0 []).mpr ⟨rfl, hall⟩) hnil

/-- Witness for C5 at a concrete instance: both boundary directions.
`[1, 2]` vs `[1, 2 + 1e-6]` at tolerance `1e-6` passes (difference equal to
the tolerance). -/
theorem compare_values_pass_iff_witness :
    (compare_values [1, 2] [1, 2 + 1/1000000] (1e-6)).1 = true :=
  (compare_values_pass_iff [1, 2] [1, 2 + 1/1000000] (1e-6) rfl).mpr (by
    intro i hi _
    simp only [List.length_cons, List.length_nil] at hi
    interval_cases i <;>
      norm_num [List.getElem_cons_zero, List.getElem_cons_succ, abs_le])

/-- Claim C10: comparing two empty value lists passes vacuously, with the
summary reporting a maximum difference of `0`. -/
theorem compare_values_empty (t : ℚ) :
    compare_values [] [] t = (true, Summary.ok 0) := rfl

/-- Claim C8, counterexample: swapping the argument order of a
length-mismatched comparison changes the reported summary (the source
formats `"Length mismatch: {len(a)} vs {len(b)}"`), so the two results are
not equal. -/
theorem compare_values_swap_ne :
    compare_values [0] [0, 0] 1 ≠ compare_values [0, 0] [0] 1 := by decide

/-- Claim C8, amended: when the lengths differ, both argument orders yield
a length-mismatch failure with `pass = false`; the summaries report the two
lengths in swapped order. -/
theorem compare_values_length_mismatch_symm (a b : List ℚ) (t : ℚ)
    (h : a.length ≠ b.length) :
    compare_values a b t = (false, .lengthMismatch a.length b.length) ∧
      compare_values b a t = (false, .lengthMismatch b.length a.length) := by
  constructor
  · simp only [compare_values, if_pos h]
  · simp only [compare_values, if_pos (Ne.symm h)]

/-- Witness for the amended C8 at lists of length 1 and 2. -/
theorem compare_values_length_mismatch_symm_witness :
    compare_values [0] [0, 0] 1 = (false, .lengthMismatch 1 2) ∧
      compare_values [0, 0] [0] 1 = (false, .lengthMismatch 2 1) :=
  compare_values_length_mismatch_symm [0] [0, 0] 1 (by decide)

/- ### The aggregator: record-count guard, verdict invariant -/

/-- Claim C6: when the two record sequences differ in length, the run
reports the count mismatch and stops before the loop: the result carries no
per-message line and no recorded discrepancy. -/
theorem mainCompare_count_mismatch (a b : List MsgRecord)
    (h : a.length ≠ b.length) :
    mainCompare a b = Except.ok (RunResult.countMismatch a.length b.length) := by
  simp only [mainCompare, if_pos h]

theorem pushLine_allMatch (st : CompareOutcome) (l : Line) :
    (pushLine st l).allMatch = st.allMatch := rfl

theorem pushValuesIssue_lines (st : CompareOutcome) (d : Descr) :
    (pushValuesIssue st d).lines = st.lines := rfl

theorem pushValuesIssue_allMatch (st : CompareOutcome) (d : Descr) :
    (pushValuesIssue st d).allMatch = st.allMatch := rfl

theorem stepStats_lines (st : CompareOutcome) (pg sg : MsgRecord) (n : ℕ) :
    (stepStats st pg sg n).lines = st.lines := by
  simp only [stepStats]
  split_ifs <;>
    simp [pushValuesIssue, pushGridIssue, pushMetadataIssue]

theorem stepStats_allMatch (st : CompareOutcome) (pg sg : MsgRecord) (n : ℕ) :
    (stepStats st pg sg n).allMatch = st.allMatch := by
  simp only [stepStats]
  split_ifs <;>
    simp [pushValuesIssue, pushGridIssue, pushMetadataIssue]

/-- `all_match` is falsified exactly by the branches that also print a
`[FAIL]` line: one step of the value comparison preserves the invariant
`all_match = "no FAIL line printed so far"`. -/
theorem stepValues_inv (st st' : CompareOutcome) (pg sg : MsgRecord) (n : ℕ)
    (h : stepValues st pg sg n = .ok st')
    (hinv : st.allMatch = !st.lines.any isFailLine) :
    st'.allMatch = !st'.lines.any isFailLine := by
  unfold stepValues at h
  repeat' split at h
  all_goals cases h
  all_goals first
    | exact hinv
    | simp [pushLine, setMismatch, pushValuesIssue, List.any_append,
        isFailLine, hinv]

theorem compareLoop_inv :
    ∀ (l : List (MsgRecord × MsgRecord)) (i : ℕ) (st st' : CompareOutcome),
      compareLoop l i st = .ok st' →
      st.allMatch = !st.lines.any isFailLine →
      st'.allMatch = !st'.lines.any isFailLine := by
  intro l
  induction l with
  | nil =>
    intro i st st' h hinv
    injection h with h2
    subst h2
    exact hinv
  | cons p rest ih =>
    intro i st st' h hinv
    obtain ⟨pg, sg⟩ := p
    simp only [compareLoop] at h
    cases hs : stepMessage st pg sg (i + 1) with
    | error e =>
      rw [hs] at h
      cases h
    | ok st1 =>
      rw [hs] at h
      have hinv1 : st1.allMatch = !st1.lines.any isFailLine := by
        unfold stepMessage at hs
        cases hv : stepValues st pg sg (i + 1) with
        | error e => rw [hv] at hs; cases hs
        | ok st2 =>
          rw [hv] at hs
          injection hs with hs2
          subst hs2
          rw [stepStats_allMatch, stepStats_lines]
          exact stepValues_inv st st2 pg sg (i + 1) hv hinv
      exact ih (i + 1) st1 st' h hinv1

/-- Claim C2, amended: for every completed run, the final verdict
`all_match` is `True` exactly when no per-message `[FAIL]` line was
produced, i.e. when no full-array or sampled value comparison failed.
Scalar-statistics, grid-shape and parameter-id discrepancies are recorded
in the issue buckets but never influence the verdict. -/
theorem mainCompare_verdict (a b : List MsgRecord) (out : CompareOutcome)
    (h : mainCompare a b = Except.ok (RunResult.completed out)) :
    out.allMatch = !out.lines.any isFailLine := by
  unfold mainCompare at h
  by_cases hl : a.length ≠ b.length
  · rw [if_pos hl] at h
    injection h with h2
    cases h2
  · rw [if_neg hl] at h
    cases hc : compareLoop (a.zip b) 0 ⟨[], emptyIssues, true⟩ with
    | error e => rw [hc] at h; cases h
    | ok st =>
      rw [hc] at h
      injection h with h2
      injection h2 with h3
      exact h3 ▸ compareLoop_inv (a.zip b) 0 ⟨[], emptyIssues, true⟩ st hc rfl

/-- Witness for C6: one record versus zero records aborts with the count
mismatch. -/
theorem mainCompare_count_mismatch_witness :
    mainCompare [recBase] [] = Except.ok (RunResult.countMismatch 1 0) :=
  mainCompare_count_mismatch [recBase] [] (by decide)

/-- Witness for the amended C2: a run of two identical one-record
sequences completes with verdict `all_match = True` and no `[FAIL]`
line. -/
theorem mainCompare_verdict_witness :
    CompareOutcome.allMatch ⟨[Line.okFull 1 "t" (Summary.ok 0)], emptyIssues, true⟩ =
      !(CompareOutcome.lines ⟨[Line.okFull 1 "t" (Summary.ok 0)], emptyIssues, true⟩).any isFailLine :=
  mainCompare_verdict [recBase] [recBase]
    ⟨[Line.okFull 1 "t" (Summary.ok 0)], emptyIssues, true⟩
    (by norm_num [mainCompare, compareLoop, stepMessage, stepValues, stepStats,
      compare_values, cvLoop, pyAbs, gridDiffers, paramIdDiffers, pushLine,
      pushValuesIssue, pushGridIssue, pushMetadataIssue, setMismatch,
      emptyIssues, recBase])

/-- Claim C2, counterexample: two one-record sequences whose records agree
in the value arrays but differ in `min` by `1` (far beyond the `1e-6`
tolerance).  A `values`-category discrepancy is recorded, yet the final
verdict is still `all_match = True` ("all match"), because the scalar
statistics checks never clear the flag. -/
theorem mainCompare_verdict_counterexample :
    verdictOf (mainCompare [recBase] [recMinOff]) = some true ∧
      (issuesOf (mainCompare [recBase] [recMinOff])).values ≠ [] := by
  norm_num [mainCompare, compareLoop, stepMessage, stepValues, stepStats,
    compare_values, cvLoop, pyAbs, gridDiffers, paramIdDiffers, pushLine,
    pushValuesIssue, pushGridIssue, pushMetadataIssue, setMismatch,
    emptyIssues, verdictOf, issuesOf, recBase, recMinOff]

/- ### Missing-field handling (claim C7) -/

/-- Claim C7, amended: in the first-message detail table a field missing
from either record is marked `N/A` and never fails a row; in the
per-message comparison pass a grid or parameter-id field missing from
*both* records compares equal (no discrepancy), but such a field missing
from exactly one record is treated as a mismatch. -/
theorem missing_field_handling :
    (∀ a b : Option FieldVal, a = none ∨ b = none →
        detailRowMatch a b = MatchMark.na)
    ∧ (∀ pg sg : MsgRecord, pg.Ni = none → sg.Ni = none → pg.Nj = none →
        sg.Nj = none → gridDiffers pg sg = false)
    ∧ (∀ pg sg : MsgRecord, pg.indicatorOfParameter = none →
        sg.indicatorOfParameter = none → paramIdDiffers pg sg = false)
    ∧ (∀ (pg sg : MsgRecord) (k : ℤ), pg.Ni = none → sg.Ni = some k →
        gridDiffers pg sg = true)
    ∧ (∀ (pg sg : MsgRecord) (k : ℤ), pg.Ni = some k → sg.Ni = none →
        gridDiffers pg sg = true)
    ∧ (∀ (pg sg : MsgRecord) (k : ℤ), pg.Nj = none → sg.Nj = some k →
        gridDiffers pg sg = true)
    ∧ (∀ (pg sg : MsgRecord) (k : ℤ), pg.Nj = some k → sg.Nj = none →
        gridDiffers pg sg = true)
    ∧ (∀ (pg sg : MsgRecord) (k : ℤ), pg.indicatorOfParameter = none →
        sg.indicatorOfParameter = some k → paramIdDiffers pg sg = true)
    ∧ (∀ (pg sg : MsgRecord) (k : ℤ), pg.indicatorOfParameter = some k →
        sg.indicatorOfParameter = none → paramIdDiffers pg sg = true) := by
  refine ⟨?_, ?_, ?_, ?_, ?_, ?_, ?_, ?_, ?_⟩
  · rintro a b (rfl | rfl)
    · unfold detailRowMatch
      split <;> simp_all
    · unfold detailRowMatch
      split <;> simp_all
  · intro pg sg h1 h2 h3 h4
    simp [gridDiffers, h1, h2, h3, h4]
  · intro pg sg h1 h2
    simp [paramIdDiffers, h1, h2]
  · intro pg sg k h1 h2
    simp [gridDiffers, h1, h2]
  · intro pg sg k h1 h2
    simp [gridDiffers, h1, h2]
  · intro pg sg k h1 h2
    simp [gridDiffers, h1, h2]
  · intro pg sg k h1 h2
    simp [gridDiffers, h1, h2]
  · intro pg sg k h1 h2
    simp [paramIdDiffers, h1, h2]
  · intro pg sg k h1 h2
    simp [paramIdDiffers, h1, h2]

/-- Witness for the amended C7 at concrete inputs, one per conjunct:
the detail-table `N/A` row, the both-absent grid and parameter-id
comparisons, and the one-sided `Ni`, `Nj` and parameter-id mismatches in
both argument orders (`recAllNone` has no `Ni`/`Nj`/parameter id;
`recNiSeven` has `Ni = 7`, `Nj = 1`, parameter id 1). -/
theorem missing_field_handling_witness :
    detailRowMatch none (some (.num 3)) = MatchMark.na ∧
      gridDiffers recAllNone recAllNone = false ∧
      paramIdDiffers recAllNone recAllNone = false ∧
      gridDiffers recAllNone recNiSeven = true ∧
      gridDiffers recNiSeven recAllNone = true ∧
      paramIdDiffers recAllNone recNiSeven = true ∧
      paramIdDiffers recNiSeven recAllNone = true :=
  ⟨missing_field_handling.1 none (some (.num 3)) (Or.inl rfl),
   missing_field_handling.2.1 recAllNone recAllNone rfl rfl rfl rfl,
   missing_field_handling.2.2.1 recAllNone recAllNone rfl rfl,
   missing_field_handling.2.2.2.1 recAllNone recNiSeven 7 rfl rfl,
   missing_field_handling.2.2.2.2.1 recNiSeven recAllNone 7 rfl rfl,
   missing_field_handling.2.2.2.2.2.2.2.1 recAllNone recNiSeven 1 rfl rfl,
   missing_field_handling.2.2.2.2.2.2.2.2 recNiSeven recAllNone 1 rfl rfl⟩

/-- Claim C7, counterexample: the per-message comparison pass of two
records that differ only in that `Ni` is absent from the first and present
in the second records a `grid`-category discrepancy — absence of a field
from one side is counted as a mismatch there, contrary to the claim. -/
theorem missing_field_counted_counterexample :
    recNiNone.Ni = none ∧
      (issuesOf (mainCompare [recNiNone] [recNiSeven])).grid ≠ [] := by
  constructor
  · rfl
  · norm_num [mainCompare, compareLoop, stepMessage, stepValues, stepStats,
      compare_values, cvLoop, pyAbs, gridDiffers, paramIdDiffers, pushLine,
      pushValuesIssue, pushGridIssue, pushMetadataIssue, setMismatch,
      emptyIssues, issuesOf, recNiNone, recNiSeven]
    decide

/- ### Payload extractor lemmas and claim C4 -/

theorem scanLines_found (l : List (List Char)) :
    ∀ acc, scanLines l true acc = acc ++ l := by
  induction l with
  | nil => intro acc; simp [scanLines]
  | cons x rest ih =>
    intro acc
    simp [scanLines, ih]

theorem scanLines_no_marker (l : List (List Char)) :
    ∀ acc, (∀ x ∈ l, pyStrip x ≠ ['[']) → scanLines l false acc = acc := by
  induction l with
  | nil => intro acc _; rfl
  | cons x rest ih =>
    intro acc h
    have hx : pyStrip x ≠ ['['] := h x (List.mem_cons_self x rest)
    have hrest := ih acc (fun y hy => h y (List.mem_cons_of_mem x hy))
    simp [scanLines, hx, hrest]

theorem scanLines_first_marker (l : List (List Char)) :
    ∀ (i : ℕ) (hi : i < l.length),
      pyStrip (l.get ⟨i, hi⟩) = ['['] →
      (∀ (j : ℕ) (hj : j < i), pyStrip (l.get ⟨j, hj.trans hi⟩) ≠ ['[']) →
      scanLines l false [] = l.drop i := by
  induction l with
  | nil => intro i hi _ _; exact absurd hi (Nat.not_lt_zero i)
  | cons x rest ih =>
    intro i hi hmark hbefore
    cases i with
    | zero =>
      have hx : pyStrip x = ['['] := hmark
      simp [scanLines, hx, scanLines_found]
    | succ k =>
      have hx : pyStrip x ≠ ['['] := hbefore 0 (Nat.succ_pos k)
      have hk : k < rest.length := Nat.lt_of_succ_lt_succ hi
      have hmark2 : pyStrip (rest.get ⟨k, hk⟩) = ['['] := hmark
      have hbefore2 : ∀ (j : ℕ) (hj : j < k),
          pyStrip (rest.get ⟨j, hj.trans hk⟩) ≠ ['['] :=
        fun j hj => hbefore (j + 1) (Nat.succ_lt_succ hj)
      simp only [scanLines, if_neg hx, Bool.false_eq_true, if_false,
        List.drop_succ_cons]
      exact ih k hk hmark2 hbefore2

/-- Claim C4: `load_json` discards all lines strictly before the first line
whose stripped content is exactly `[`, rejoins that line and every
subsequent line with the newlines preserved, and parses the result; when
no marker line exists anywhere, parsing fails with `MalformedPayload`
instead of returning a payload. -/
theorem load_json_spec (content : List Char) :
    ((∀ l ∈ splitLines content, pyStrip l ≠ ['[']) →
        load_json content = ParseOutcome.malformedPayload)
    ∧ (∀ (i : ℕ) (hi : i < (splitLines content).length),
        pyStrip ((splitLines content).get ⟨i, hi⟩) = ['['] →
        (∀ (j : ℕ) (hj : j < i),
          pyStrip ((splitLines content).get ⟨j, hj.trans hi⟩) ≠ ['[']) →
        load_json content =
          ParseOutcome.parsed
            (List.intercalate ['\n'] ((splitLines content).drop i))) := by
  constructor
  · intro h
    unfold load_json
    rw [scanLines_no_marker _ [] h]
  · intro i hi hmark hbefore
    unfold load_json
    rw [scanLines_first_marker _ i hi hmark hbefore,
      List.drop_eq_getElem_cons hi]

/-- Witness for C4: text `"x\ny"` has no marker line and fails; text
`"x\n[\n1]"` has its first marker at line index 1 and yields the payload
`"[\n1]"`, the marker line plus the rest with the line break kept. -/
theorem load_json_spec_witness :
    load_json ['x', '\n', 'y'] = ParseOutcome.malformedPayload ∧
      load_json ['x', '\n', '[', '\n', '1', ']'] =
        ParseOutcome.parsed ['[', '\n', '1', ']'] := by
  constructor
  · exact (load_json_spec ['x', '\n', 'y']).1 (by decide)
  · have h := (load_json_spec ['x', '\n', '[', '\n', '1', ']']).2 1 (by decide)
      (by decide) (by decide)
    rw [h]
    decide

/- ### Record extractor: claim C3 -/

/-- Claim C3, counterexample: the record extracted for message 1 carries
`allValues` and also `first10`/`last10`, so "exactly one of the two
sampling modes is present" fails. -/
theorem extractRecord_both_present :
    ¬ (Xor' (hasKey (extractRecord 1 [1]) "allValues" = true)
        (hasKey (extractRecord 1 [1]) "first10" = true ∧
          hasKey (extractRecord 1 [1]) "last10" = true)) := by decide

/-- Claim C3, amended: every extracted record carries `min`, `max`, `mean`,
`first10` and `last10`; `allValues` is additionally present exactly for the
selected messages (`msg_num ≤ 5` or `(msg_num - 1) % 51 < 2`). -/
theorem extractRecord_presence (n : ℕ) (vs : List ℚ) :
    hasKey (extractRecord n vs) "min" = true ∧
      hasKey (extractRecord n vs) "max" = true ∧
      hasKey (extractRecord n vs) "mean" = true ∧
      hasKey (extractRecord n vs) "first10" = true ∧
      hasKey (extractRecord n vs) "last10" = true ∧
      hasKey (extractRecord n vs) "allValues" =
        (decide (n ≤ 5) || decide ((n - 1) % 51 < 2)) := by
  refine ⟨?_, ?_, ?_, ?_, ?_, ?_⟩
  · simp [extractRecord, hasKey]
  · simp [extractRecord, hasKey]
  · simp [extractRecord, hasKey]
  · simp [extractRecord, hasKey]
  · simp [extractRecord, hasKey]
  · simp [extractRecord, hasKey]
    by_cases h : n ≤ 5 ∨ (n - 1) % 51 < 2
    · rw [if_pos h]
      simp [hasKey]
      tauto
    · rw [if_neg h]
      simp [hasKey]
      omega

/- ### Wind module lemmas: exact directions at the fixture inputs -/

theorem windDir_from_north : (calc_wind_direction 0 (-1)).2 = 0 := by
  have h : arctan2_neg 0 (-1) = 0 := by
    norm_num [arctan2_neg, Real.arctan_zero]
  simp only [calc_wind_direction, h]
  norm_num [normalizeDeg]

theorem windDir_from_west : (calc_wind_direction 1 0).2 = 270 := by
  have h : arctan2_neg 1 0 = -(Real.pi / 2) := by
    norm_num [arctan2_neg]
  have h3 : -(Real.pi / 2) * (180 / Real.pi) = -90 := by
    field_simp
    ring
  simp only [calc_wind_direction, h, h3]
  norm_num [normalizeDeg]

theorem windDir_from_south : (calc_wind_direction 0 1).2 = 180 := by
  have h : arctan2_neg 0 1 = -Real.pi := by
    norm_num [arctan2_neg]
  have h3 : -Real.pi * (180 / Real.pi) = -180 := by
    field_simp
    ring
  simp only [calc_wind_direction, h, h3]
  norm_num [normalizeDeg]

theorem windDir_from_east : (calc_wind_direction (-1) 0).2 = 90 := by
  have h : arctan2_neg (-1) 0 = Real.pi / 2 := by
    norm_num [arctan2_neg]
  have h3 : Real.pi / 2 * (180 / Real.pi) = 90 := by
    field_simp
    ring
  simp only [calc_wind_direction, h, h3]
  norm_num [normalizeDeg]

theorem windDir_from_northwest : (calc_wind_direction 1 (-1)).2 = 315 := by
  have h : arctan2_neg 1 (-1) = -(Real.pi / 4) := by
    norm_num [arctan2_neg, Real.arctan_neg, Real.arctan_one]
  have h3 : -(Real.pi / 4) * (180 / Real.pi) = -45 := by
    field_simp
    ring
  simp only [calc_wind_direction, h, h3]
  norm_num [normalizeDeg]

theorem windDir_from_northeast : (calc_wind_direction (-1) (-1)).2 = 45 := by
  have h : arctan2_neg (-1) (-1) = Real.pi / 4 := by
    norm_num [arctan2_neg, Real.arctan_one]
  have h3 : Real.pi / 4 * (180 / Real.pi) = 45 := by
    field_simp
    ring
  simp only [calc_wind_direction, h, h3]
  norm_num [normalizeDeg]

theorem windDir_from_southeast : (calc_wind_direction (-1) 1).2 = 135 := by
  have h : arctan2_neg (-1) 1 = -(Real.pi / 4) + Real.pi := by
    norm_num [arctan2_neg, Real.arctan_neg, Real.arctan_one]
  have h3 : (-(Real.pi / 4) + Real.pi) * (180 / Real.pi) = 135 := by
    field_simp
    ring
  simp only [calc_wind_direction, h, h3]
  norm_num [normalizeDeg]

theorem windDir_from_southwest : (calc_wind_direction 1 1).2 = 225 := by
  have h : arctan2_neg 1 1 = Real.pi / 4 - Real.pi := by
    norm_num [arctan2_neg, Real.arctan_one]
  have h3 : (Real.pi / 4 - Real.pi) * (180 / Real.pi) = -135 := by
    field_simp
    ring
  simp only [calc_wind_direction, h, h3]
  norm_num [normalizeDeg]

/-- Claim C1, counterexample: the spec's table assigns `(u=1, v=0) → 90`,
but the formula `atan2(-u, -v)` gives `atan2(-1, -0.0) = -π/2`, i.e.
direction 270 (wind from the west is bearing 270, as the code's own test
label "Wind FROM West" agrees); the difference 180 is far beyond 1e-9. -/
theorem wind_direction_table_counterexample :
    ¬ (|(calc_wind_direction 1 0).2 - 90| ≤ 1e-9) := by
  rw [windDir_from_west]
  norm_num

/-- Claim C1, amended: the conversion `atan2(-u, -v)` in degrees with 360
added to a negative result satisfies, within 1e-9 degrees (here exactly),
the corrected table `(0,-1)→0`, `(1,0)→270`, `(0,1)→180`, `(-1,0)→90`,
`(1,-1)→315`, `(-1,-1)→45`, `(-1,1)→135`, `(1,1)→225`. -/
theorem wind_direction_fixed_table :
    |(calc_wind_direction 0 (-1)).2 - 0| ≤ 1e-9 ∧
      |(calc_wind_direction 1 0).2 - 270| ≤ 1e-9 ∧
      |(calc_wind_direction 0 1).2 - 180| ≤ 1e-9 ∧
      |(calc_wind_direction (-1) 0).2 - 90| ≤ 1e-9 ∧
      |(calc_wind_direction 1 (-1)).2 - 315| ≤ 1e-9 ∧
      |(calc_wind_direction (-1) (-1)).2 - 45| ≤ 1e-9 ∧
      |(calc_wind_direction (-1) 1).2 - 135| ≤ 1e-9 ∧
      |(calc_wind_direction 1 1).2 - 225| ≤ 1e-9 := by
  refine ⟨?_, ?_, ?_, ?_, ?_, ?_, ?_, ?_⟩
  · rw [windDir_from_north]; norm_num
  · rw [windDir_from_west]; norm_num
  · rw [windDir_from_south]; norm_num
  · rw [windDir_from_east]; norm_num
  · rw [windDir_from_northwest]; norm_num
  · rw [windDir_from_northeast]; norm_num
  · rw [windDir_from_southeast]; norm_num
  · rw [windDir_from_southwest]; norm_num

/-- Claim C9: the degenerate input `u = 0, v = 0` yields speed 0 and
direction exactly 180 under the formula itself — IEEE `atan2(-0.0, -0.0)`
is `-π`, i.e. -180 degrees, normalised to 180 — and the compass
classification of 180 is `"S"`. -/
theorem wind_degenerate :
    calc_wind_direction 0 0 = (0, 180) ∧ compass 180 = "S" := by
  constructor
  · have h : arctan2_neg 0 0 = -Real.pi := by
      norm_num [arctan2_neg]
    have h3 : -Real.pi * (180 / Real.pi) = -180 := by
      field_simp
      ring
    simp only [calc_wind_direction, h, h3]
    norm_num [normalizeDeg, Real.sqrt_zero, Prod.ext_iff]
  · norm_num [compass]
